import Mathlib

/-!
Verification development for the feeless-wallet browser extension.

The repository is a wallet front-end consisting of three parts relevant
here, each embedded shallowly below, translated from the source:

* `src/src/utils/storage.ts` — credential persistence over `localStorage`
  (`saveWalletCredentials`, `getWalletCredentials`, `clearWalletCredentials`);
* `src/public/background.js` — the background dispatcher relaying external
  wallet-action requests to the side panel, correlating responses by a
  generated `requestId`, with a 12000 ms fallback timeout;
* `src/src/components/WalletActionModalContext.tsx` — the in-panel approval
  modal: the `handlePanelRequest` message listener, the `handleApprove` /
  `handleReject` button handlers, the `requestAction` in-process entry point
  and the 10-tick auto-reject countdown.
-/

namespace FeelessWallet

/-! ## Credential storage (`src/src/utils/storage.ts`)

`localStorage` is modelled as an association list from keys to stored
strings; `getItem` returns the first binding, `setItem` overwrites the
binding, `removeItem` erases it. -/

abbrev Storage := List (String × String)

def getItem (k : String) (s : Storage) : Option String :=
  (s.find? (fun p => p.1 == k)).map Prod.snd

def setItem (k v : String) (s : Storage) : Storage :=
  (k, v) :: s.filter (fun p => p.1 != k)

def removeItem (k : String) (s : Storage) : Storage :=
  s.filter (fun p => p.1 != k)

/-- The `WalletCredentials` interface of `storage.ts`. -/
structure WalletCredentials where
  privateKey : String
  wsNode : String
  httpNode : String
deriving DecidableEq

/-- The fixed storage key used by all three storage operations. -/
def credsKey : String := "wallet_credentials"

/-- JSON string-character escaping as performed by `JSON.stringify` on the
field values: a quote or backslash is preceded by a backslash.  (Control
characters, which `JSON.stringify` also escapes, do not affect any claim
and are left literal.) -/
def escapeChars : List Char → List Char
  | [] => []
  | c :: cs => if c = '"' || c = '\\' then '\\' :: c :: escapeChars cs else c :: escapeChars cs

/-- `JSON.stringify({privateKey, wsNode, httpNode})`: the object literal is
serialised with its fields in declaration order, each value a quoted
escaped string.  The shape is nested to the right so that the parser
lemmas below apply by rewriting. -/
def encodeCredsChars (c : WalletCredentials) : List Char :=
  "\x7b\"privateKey\":\"".data ++
    (escapeChars c.privateKey.data ++ ('"' ::
      (",\"wsNode\":\"".data ++
        (escapeChars c.wsNode.data ++ ('"' ::
          (",\"httpNode\":\"".data ++
            (escapeChars c.httpNode.data ++ ('"' :: "\x7d".data))))))))

def stringifyCredentials (c : WalletCredentials) : String :=
  String.mk (encodeCredsChars c)

/-- Consume the body of a JSON string literal up to and including its
closing quote, undoing the backslash escapes; returns the decoded
characters and the remaining input. -/
def parseStringBody : List Char → Option (List Char × List Char)
  | [] => none
  | c :: rest =>
    if c = '"' then some ([], rest)
    else if c = '\\' then
      match rest with
      | [] => none
      | d :: rest2 =>
        match parseStringBody rest2 with
        | none => none
        | some (s, r) => some (d :: s, r)
    else
      match parseStringBody rest with
      | none => none
      | some (s, r) => some (c :: s, r)

/-- Consume an expected literal prefix. -/
def expectLit : List Char → List Char → Option (List Char)
  | [], rest => some rest
  | _ :: _, [] => none
  | c :: cs, d :: rest => if c = d then expectLit cs rest else none

/-- Model of `JSON.parse` followed by the implicit cast to
`WalletCredentials`, on the domain relevant to `storage.ts`: it accepts
exactly the serialisations produced by `encodeCredsChars` (the code only
ever parses what `saveWalletCredentials` wrote).  Any other input is
mapped to `none`, standing for the `catch` branch of
`getWalletCredentials`. -/
def parseCredsChars (l : List Char) : Option WalletCredentials := do
  let r1 ← expectLit "\x7b\"privateKey\":\"".data l
  let (pk, r2) ← parseStringBody r1
  let r3 ← expectLit ",\"wsNode\":\"".data r2
  let (ws, r4) ← parseStringBody r3
  let r5 ← expectLit ",\"httpNode\":\"".data r4
  let (hn, r6) ← parseStringBody r5
  let r7 ← expectLit "\x7d".data r6
  if r7 = [] then some ⟨String.mk pk, String.mk ws, String.mk hn⟩ else none

def parseCredentials (s : String) : Option WalletCredentials :=
  parseCredsChars s.data

/-- `saveWalletCredentials` of `storage.ts`: store the JSON serialisation
under the fixed key. -/
def saveWalletCredentials (c : WalletCredentials) (s : Storage) : Storage :=
  setItem credsKey (stringifyCredentials c) s

/-- `getWalletCredentials` of `storage.ts`: read the fixed key; a missing
or falsy (empty) value yields `none`, and a parse failure is caught and
yields `none`. -/
def getWalletCredentials (s : Storage) : Option WalletCredentials :=
  match getItem credsKey s with
  | none => none
  | some stored => if stored = "" then none else parseCredentials stored

/-- `clearWalletCredentials` of `storage.ts`. -/
def clearWalletCredentials (s : Storage) : Storage :=
  removeItem credsKey s

/-! ### Storage lemmas -/

theorem getItem_setItem (k v : String) (s : Storage) :
    getItem k (setItem k v s) = some v := by
  simp [getItem, setItem, List.find?]

theorem getItem_removeItem (k : String) (s : Storage) :
    getItem k (removeItem k s) = none := by
  induction s with
  | nil => rfl
  | cons hd t ih =>
    by_cases h : hd.1 = k
    · simp [removeItem, getItem, h]
    · simp [removeItem, getItem, List.find?, h]

theorem parseStringBody_cons (c : Char) (rest : List Char) :
    parseStringBody (c :: rest) =
      (if c = '"' then some ([], rest)
       else if c = '\\' then
         match rest with
         | [] => none
         | d :: rest2 =>
           match parseStringBody rest2 with
           | none => none
           | some (s, r) => some (d :: s, r)
       else
         match parseStringBody rest with
         | none => none
         | some (s, r) => some (c :: s, r)) := by
  rw [parseStringBody.eq_def]

theorem parseStringBody_escape (s rest : List Char) :
    parseStringBody (escapeChars s ++ '"' :: rest) = some (s, rest) := by
  induction s with
  | nil => simp [escapeChars, parseStringBody_cons]
  | cons c cs ih =>
    by_cases hq : c = '"'
    · subst hq; simp [escapeChars, parseStringBody_cons, ih]
    · by_cases hb : c = '\\'
      · subst hb; simp [escapeChars, parseStringBody_cons, ih]
      · simp [escapeChars, parseStringBody_cons, hq, hb, ih]

theorem expectLit_append (lit rest : List Char) :
    expectLit lit (lit ++ rest) = some rest := by
  induction lit with
  | nil => rfl
  | cons c cs ih => simp [expectLit, ih]

theorem String_mk_data (s : String) : String.mk s.data = s := rfl

theorem parseCreds_encode (c : WalletCredentials) :
    parseCredsChars (encodeCredsChars c) = some c := by
  obtain ⟨pk, ws, hn⟩ := c
  simp [parseCredsChars, encodeCredsChars, expectLit, parseStringBody_escape,
    String_mk_data]

theorem stringify_ne_empty (c : WalletCredentials) :
    stringifyCredentials c ≠ "" := by
  intro h
  have : (stringifyCredentials c).data = "".data := by rw [h]
  simp [stringifyCredentials, encodeCredsChars] at this

/-- C9: for every state of the credential store, `getWalletCredentials`
never throws (it is a total function into `Option`): a missing stored
value yields `none`, and a stored value on which the JSON parse fails is
caught and also yields `none` — malformed storage is treated as absent,
never fatal. -/
theorem getWalletCredentials_never_fatal (s : Storage) :
    (getItem credsKey s = none → getWalletCredentials s = none) ∧
    (∀ stored, getItem credsKey s = some stored → parseCredentials stored = none →
      getWalletCredentials s = none) := by
  constructor
  · intro h; simp [getWalletCredentials, h]
  · intro stored h hp
    by_cases he : stored = ""
    · simp [getWalletCredentials, h, he]
    · simp [getWalletCredentials, h, he, hp]

/-- Witness for C9 at two concrete stores: an empty store (key missing)
and a store holding a non-JSON string under the key. -/
theorem getWalletCredentials_never_fatal_witness :
    getWalletCredentials ([] : Storage) = none ∧
    getWalletCredentials [(credsKey, "not json")] = none := by
  constructor
  · exact (getWalletCredentials_never_fatal []).1 rfl
  · exact (getWalletCredentials_never_fatal [(credsKey, "not json")]).2
      "not json" rfl rfl

/-- C10: save/get round-trip and clear/get identity on the single fixed
storage key: reading immediately after `saveWalletCredentials c` returns
exactly `c`, and reading immediately after `clearWalletCredentials`
returns `none`. -/
theorem credentials_round_trip (c : WalletCredentials) (s : Storage) :
    getWalletCredentials (saveWalletCredentials c s) = some c ∧
    getWalletCredentials (clearWalletCredentials s) = none := by
  constructor
  · unfold getWalletCredentials saveWalletCredentials
    rw [getItem_setItem]
    simp only [stringify_ne_empty c, if_false, ite_false]
    exact parseCreds_encode c
  · unfold getWalletCredentials clearWalletCredentials
    rw [getItem_removeItem]

/-! ## Background dispatcher (`src/public/background.js`)

The `chrome.runtime.onMessage` listener of the background script.  JS
runtime values appearing in payload fields are modelled by `JSValue`; the
number case is split by `Number.isInteger`. -/

inductive JSValue where
  | undef
  | intNum (n : Int)
  | nonIntNum
  | str (s : String)
  | objOrOther
deriving DecidableEq

/-- `Number.isInteger`: true exactly on integral numbers. -/
def isInteger : JSValue → Bool
  | .intNum _ => true
  | _ => false

/-- Fuel-driven floor of log base 2 (`fuel = a + 1` always suffices);
structural recursion so that concrete values reduce inside the kernel. -/
def log2fuel : Nat → Nat → Nat
  | 0, _ => 0
  | fuel + 1, a => if a ≥ 2 then log2fuel fuel (a / 2) + 1 else 0

/-- Floor of log base 2 (0 for inputs below 2). -/
def floorLog2 (a : Nat) : Nat := log2fuel (a + 1) a

/-- Fuel-driven decimal digit count. -/
def digitCountFuel : Nat → Nat → Nat
  | 0, _ => 0
  | fuel + 1, a => if a < 10 then 1 else digitCountFuel fuel (a / 10) + 1

/-- Number of decimal digits of a natural number (1 for 0). -/
def digitCount (a : Nat) : Nat := digitCountFuel (a + 1) a

/-- Strip trailing decimal zeros. -/
def stripZerosFuel : Nat → Nat → Nat
  | 0, a => a
  | fuel + 1, a => if a ≠ 0 ∧ a % 10 = 0 then stripZerosFuel fuel (a / 10) else a

/-- The significant-digit part of a positive decimal value. -/
def stripZeros (a : Nat) : Nat := stripZerosFuel (a + 1) a

/-- Membership of an integer decimal candidate `c` in the set of reals
that round (nearest, ties to an even significand) to the binary64 value
whose exact integer value is `A`, with half-gap `down` to the
neighbouring double below and `up` to the one above, `ev` indicating an
even significand of `A`. -/
def inRegion (A down up : Nat) (ev : Bool) (c : Nat) : Bool :=
  (decide (A - down < c) && decide (c < A + up)) ||
    (ev && (decide (c = A - down) || decide (c = A + up)))

/-- Digit selection of the ECMAScript `Number::toString` algorithm: for
`k = 1, 2, ...` try the two nearest `k`-digit decimal candidates
`s · 10^(D−k)`; the first `k` admitting a candidate in the rounding
region wins, the closer (then even) candidate being chosen.  `k = D`
always succeeds with the exact value, so fuel `D` suffices. -/
def pickShortest (A down up : Nat) (ev : Bool) (D : Nat) : Nat → Nat → Nat
  | 0, _ => A
  | fuel + 1, k =>
    let p := D - k
    let s1 := A / 10 ^ p
    let c1 := s1 * 10 ^ p
    let c2 := (s1 + 1) * 10 ^ p
    let ok1 := inRegion A down up ev c1
    let ok2 := inRegion A down up ev c2
    if ok1 && ok2 then
      if A - c1 < c2 - A then c1
      else if c2 - A < A - c1 then c2
      else if s1 % 2 = 0 then c1 else c2
    else if ok1 then c1
    else if ok2 then c2
    else pickShortest A down up ev D fuel (k + 1)

/-- The decimal value printed by ECMAScript for a large integral double
with exact value `A > 2^53`: for `2^e ≤ A < 2^(e+1)` the half-gaps to
the neighbouring doubles are `2^(e−53)` (halved below when `A` is an
exact power of two), and the shortest digit string that rounds back to
`A` is chosen. -/
def jsLargeIntDigits (A : Nat) : Nat :=
  let e := floorLog2 A
  let down := if A = 2 ^ e then 2 ^ (e - 54) else 2 ^ (e - 53)
  let up := 2 ^ (e - 53)
  let ev := decide ((A / 2 ^ (e - 52)) % 2 = 0)
  pickShortest A down up ev (digitCount A) (digitCount A) 1

/-- Layout of the ECMAScript rendering of the printed value `c`:
positional while at most 21 digit positions are needed, exponential
(`d.ddd…e+X`) beyond. -/
def renderJSNumber (neg : Bool) (c : Nat) : String :=
  let npos := digitCount c
  let body :=
    if npos ≤ 21 then toString c
    else
      let sStr := toString (stripZeros c)
      let head := sStr.take 1
      let tail := sStr.drop 1
      (if tail = "" then head else head ++ "." ++ tail) ++ "e+" ++ toString (npos - 1)
  if neg then "-" ++ body else body

/-- ECMAScript `String(v)` for an integral number value `n`.  In the
safe range `|n| ≤ 2^53` the double is exact and the rendering is the
plain decimal digits.  Beyond the safe range the printed digits are the
shortest sequence rounding back to the double — which can deviate from
the exact decimal digits, e.g. `String(2^60) = "1152921504606847000"` —
and from 10^21 upward the layout is exponential, e.g. `String(1e21) =
"1e+21"`.  Integral values that are not exactly representable as
binary64 never occur as JS numbers; for them the same formulas are
applied to the exact value. -/
def jsNumberToString (n : Int) : String :=
  if n.natAbs ≤ 2 ^ 53 then toString n
  else renderJSNumber (decide (n < 0)) (jsLargeIntDigits n.natAbs)

/-- `String(v)` conversion for the values flowing through the modelled
paths.  The number case follows the ECMAScript rendering above; only
the integer and string cases are exercised by the code under
verification (the `signIn` nonce reaching `String(...)` has passed the
`Number.isInteger` check); the remaining cases are never inspected by
any claim. -/
def jsString : JSValue → String
  | .intNum n => jsNumberToString n
  | .str s => s
  | .undef => "undefined"
  | .nonIntNum => ""
  | .objOrOther => "[object Object]"

/-- The payload object fields read anywhere in the dispatcher or panel
(`toAddr` models the payload field `to`, a Lean keyword). -/
structure PayloadObj where
  nonce : JSValue
  message : JSValue
  amount : JSValue
  toAddr : JSValue
  token : JSValue
  unlock : JSValue
  airdrop : JSValue
  miningReward : JSValue
deriving DecidableEq

/-- A message arriving at the background listener from the content-script
bridge; `payload = none` models a falsy/absent `message.payload`. -/
structure IncomingMsg where
  method : String
  payload : Option PayloadObj
deriving DecidableEq

/-- The method whitelist of the outer `if` in `background.js`. -/
def supportedMethod (m : String) : Bool :=
  m == "getPublicKey" || m == "signMessage" || m == "signIn" ||
  m == "send" || m == "mintToken" || m == "alive"

/-- The `signIn` validation: `!message.payload ||
!Number.isInteger(message.payload.nonce)`. -/
def signInInvalid (msg : IncomingMsg) : Bool :=
  match msg.payload with
  | none => true
  | some p => !(isInteger p.nonce)

/-- A runtime message observed by the dispatcher's single-shot
`handlePanelResponse` listener. -/
structure PanelMsg where
  type : String
  requestId : String
  result : JSValue
  error : JSValue
deriving DecidableEq

/-- One invocation of the caller's `sendResponse` callback. -/
structure SendResponseCall where
  result : JSValue
  error : JSValue
deriving DecidableEq

/-- The broadcast `reqMsg` sent to all extension views. -/
structure BroadcastMsg where
  type : String
  method : String
  payload : Option PayloadObj
  requestId : String
deriving DecidableEq

/-- The `setTimeout` window of the dispatcher fallback, in milliseconds. -/
def timeoutMs : Nat := 12000

def timeoutError : String := "Timeout waiting for user response"

def nonceError : String := "Nonce must be an integer"

/-- Everything one dispatch of the background listener produces: the
`sendResponse` invocations in chronological order (each tagged with its
time in ms after dispatch) and the broadcast to the panel, if any. -/
structure DispatchResult where
  sends : List (Nat × SendResponseCall)
  broadcast : Option BroadcastMsg
deriving DecidableEq

/-- The test of `handlePanelResponse`: the message carries the panel
response type and the matching generated `requestId`.  The time bound
reflects that the listener is removed when the 12000 ms timer fires, so
later messages are ignored. -/
def matchesResponse (rid : String) (e : Nat × PanelMsg) : Bool :=
  decide (e.1 < timeoutMs) && e.2.type == "feeless-wallet-panel-response" &&
    e.2.requestId == rid

/-- The background `onMessage` listener, as a function of the incoming
message, the generated `requestId`, and the chronologically ordered trace
of runtime messages subsequently delivered to the extension.  Paths:
an unsupported method produces nothing; an invalid `signIn` responds
synchronously (time 0) and broadcasts nothing; otherwise the request is
broadcast, the first matching panel response (if any arrives before the
timer) is forwarded, and the 12000 ms timer always fires afterwards,
invoking `sendResponse` with the timeout error. -/
def dispatch (msg : IncomingMsg) (rid : String) (events : List (Nat × PanelMsg)) :
    DispatchResult :=
  if !supportedMethod msg.method then ⟨[], none⟩
  else if msg.method == "signIn" && signInInvalid msg then
    ⟨[(0, ⟨.undef, .str nonceError⟩)], none⟩
  else
    let bc : BroadcastMsg := ⟨"feeless-wallet-panel-request", msg.method, msg.payload, rid⟩
    match events.find? (matchesResponse rid) with
    | some (t, pm) =>
      ⟨[(t, ⟨pm.result, pm.error⟩), (timeoutMs, ⟨.undef, .str timeoutError⟩)], some bc⟩
    | none => ⟨[(timeoutMs, ⟨.undef, .str timeoutError⟩)], some bc⟩

/-- Chrome delivers at most one response per message: the first
`sendResponse` invocation wins and every later one is a no-op.  The
responses the original caller actually receives are therefore the first
element of the invocation list. -/
def responsesDelivered (d : DispatchResult) : List (Nat × SendResponseCall) :=
  d.sends.take 1

/-- The one response seen by the caller, with its delivery time. -/
def callerResponse (d : DispatchResult) : Option (Nat × SendResponseCall) :=
  d.sends.head?

/-- C1: for every supported method (excluding the synchronously rejected
invalid `signIn`), the caller receives exactly one response: the first
panel response matching the generated `requestId` if one arrives before
the timer, otherwise the timeout error delivered 12000 ms after dispatch
— never zero responses and never two. -/
theorem dispatch_exactly_one_response (msg : IncomingMsg) (rid : String)
    (events : List (Nat × PanelMsg))
    (h1 : supportedMethod msg.method = true)
    (h2 : msg.method = "signIn" → signInInvalid msg = false) :
    (responsesDelivered (dispatch msg rid events)).length = 1 ∧
    (∀ t pm, events.find? (matchesResponse rid) = some (t, pm) →
      callerResponse (dispatch msg rid events) = some (t, ⟨pm.result, pm.error⟩)) ∧
    (events.find? (matchesResponse rid) = none →
      callerResponse (dispatch msg rid events) =
        some (timeoutMs, ⟨.undef, .str timeoutError⟩)) := by
  have hb : (msg.method == "signIn" && signInInvalid msg) = false := by
    by_cases hs : msg.method = "signIn"
    · simp [hs, h2 hs]
    · simp [hs]
  cases hf : events.find? (matchesResponse rid) with
  | none =>
    refine ⟨?_, ?_, ?_⟩ <;>
      simp [dispatch, responsesDelivered, callerResponse, h1, hb, hf]
  | some e =>
    obtain ⟨t, pm⟩ := e
    refine ⟨?_, ?_, ?_⟩ <;>
      simp [dispatch, responsesDelivered, callerResponse, h1, hb, hf]

/-- Witness for C1 at a concrete dispatch: a `getPublicKey` request whose
panel response arrives at 5000 ms. -/
theorem dispatch_exactly_one_response_witness :
    callerResponse
        (dispatch ⟨"getPublicKey", none⟩ "r1"
          [(5000, ⟨"feeless-wallet-panel-response", "r1", .str "PK", .undef⟩)]) =
      some (5000, ⟨.str "PK", .undef⟩) := by
  exact (dispatch_exactly_one_response ⟨"getPublicKey", none⟩ "r1"
    [(5000, ⟨"feeless-wallet-panel-response", "r1", .str "PK", .undef⟩)]
    (by decide) (by decide)).2.1 5000
    ⟨"feeless-wallet-panel-response", "r1", .str "PK", .undef⟩ (by decide)

/-- C3: a `signIn` request whose payload is missing or whose
`payload.nonce` is not an integer is answered synchronously (at time 0)
with exactly `{error: "Nonce must be an integer"}`, and the request is
never broadcast to the panel. -/
theorem signIn_invalid_nonce_sync_error (msg : IncomingMsg) (rid : String)
    (events : List (Nat × PanelMsg))
    (hm : msg.method = "signIn") (hv : signInInvalid msg = true) :
    dispatch msg rid events = ⟨[(0, ⟨.undef, .str nonceError⟩)], none⟩ := by
  simp [dispatch, supportedMethod, hm, hv]

/-- Witness for C3 at two concrete requests: a `signIn` with no payload
and a `signIn` whose nonce is a non-integer number. -/
theorem signIn_invalid_nonce_sync_error_witness :
    dispatch ⟨"signIn", none⟩ "r2" [] = ⟨[(0, ⟨.undef, .str nonceError⟩)], none⟩ ∧
    dispatch ⟨"signIn", some ⟨.nonIntNum, .undef, .undef, .undef, .undef, .undef, .undef, .undef⟩⟩
        "r3" [] =
      ⟨[(0, ⟨.undef, .str nonceError⟩)], none⟩ := by
  constructor
  · exact signIn_invalid_nonce_sync_error ⟨"signIn", none⟩ "r2" [] rfl (by decide)
  · exact signIn_invalid_nonce_sync_error
      ⟨"signIn", some ⟨.nonIntNum, .undef, .undef, .undef, .undef, .undef, .undef, .undef⟩⟩
      "r3" [] rfl (by decide)

/-! ## Approval panel (`src/src/components/WalletActionModalContext.tsx`)

The provider's state is the optional modal record (action, promise
callbacks, external flag, correlation id) plus the countdown counter.
Handlers are modelled as pure state transformers that also emit the list
of observable effects (runtime messages sent, promise settlements, Wallet
Client invocations) in execution order. -/

/-- The `WalletActionRequest` union of the panel component; each variant
carries its optional legacy correlation `id` field (`toAddr` models the
`to` field, a Lean keyword). -/
inductive WalletActionRequest where
  | getPublicKey (id : Option String)
  | sharePublicKey (id : Option String)
  | signMessage (message : JSValue) (id : Option String)
  | signIn (nonce : JSValue) (id : Option String)
  | send (amount toAddr token unlock : JSValue) (id : Option String)
  | mintToken (airdrop miningReward token : JSValue) (id : Option String)
  | alive (id : Option String)
deriving DecidableEq

/-- The `id` field of an action. -/
def WalletActionRequest.actionId : WalletActionRequest → Option String
  | .getPublicKey i => i
  | .sharePublicKey i => i
  | .signMessage _ i => i
  | .signIn _ i => i
  | .send _ _ _ _ i => i
  | .mintToken _ _ _ i => i
  | .alive i => i

/-- The modal slot contents: the pending action, whether a local
resolve/reject pair is attached (in-process requests), the `external`
flag and the panel correlation `requestId`. -/
structure Modal where
  action : WalletActionRequest
  hasPromise : Bool
  external : Bool
  requestId : Option String
deriving DecidableEq

/-- The external Wallet Client capability (`feeless-utils`), opaque to
this repository: its public key, signing function, transaction placement
(`none` models a falsy result), token minting and mint-fee query. -/
structure FeelessClient where
  getPublic : String
  signMessage : JSValue → String
  placeTXV2 : JSValue → JSValue → JSValue → JSValue → Option String
  mintToken : JSValue → JSValue → JSValue → Bool
  getMintFee : Nat

/-- The result objects constructed in `handleApprove` and the `alive`
branch (`undefined` stands for an absent or undefined result). -/
inductive ResVal where
  | undefined
  | aliveStatus
  | pk (publicKey : String)
  | pkSig (publicKey signature : String)
  | txResult (status : String) (publicKey : String) (signature : Option String)
  | mintResult (status : String) (publicKey : String)
deriving DecidableEq

/-- A Wallet Client method invocation, recorded as an effect. -/
inductive ClientCall where
  | getPublic
  | signMessage (arg : JSValue)
  | placeTXV2 (toAddr amount token unlock : JSValue)
  | mintToken (airdrop miningReward token : JSValue)
  | getMintFee
deriving DecidableEq

/-- Observable effects of the panel handlers, in execution order. -/
inductive Effect where
  | sendPanelResponse (requestId : String) (result : ResVal) (error : Option String)
  | sendWalletResponse (id : String) (result : ResVal) (error : Option String)
  | resolvePromise (value : ResVal)
  | rejectPromise (reason : String)
  | callClient (c : ClientCall)
deriving DecidableEq

/-- A `feeless-wallet-panel-request` broadcast as received by the panel's
message listener. -/
structure PanelReq where
  type : String
  method : String
  payload : PayloadObj
  requestId : String
deriving DecidableEq

/-- The `handlePanelRequest` listener: ignores messages of any other
type; returns without any action when no Wallet Client is present
(`if (!client) return`, which precedes every method branch); answers
`alive` immediately without touching the modal slot; for the five
approval-requiring methods it overwrites the modal slot with a new
external record carrying the request's correlation id (`mintToken`
additionally queries the mint fee); any other method is ignored. -/
def handlePanelRequest (client : Option FeelessClient) (modal : Option Modal)
    (request : PanelReq) : Option Modal × List Effect :=
  if request.type != "feeless-wallet-panel-request" then (modal, [])
  else match client with
  | none => (modal, [])
  | some _ =>
    if request.method == "alive" then
      (modal, [.sendPanelResponse request.requestId .aliveStatus none])
    else if request.method == "getPublicKey" then
      (some ⟨.getPublicKey none, false, true, some request.requestId⟩, [])
    else if request.method == "signMessage" then
      (some ⟨.signMessage request.payload.message none, false, true, some request.requestId⟩, [])
    else if request.method == "signIn" then
      (some ⟨.signIn request.payload.nonce none, false, true, some request.requestId⟩, [])
    else if request.method == "send" then
      (some ⟨.send request.payload.amount request.payload.toAddr request.payload.token
        .undef none, false, true, some request.requestId⟩, [])
    else if request.method == "mintToken" then
      (some ⟨.mintToken request.payload.airdrop request.payload.miningReward
        request.payload.token none, false, true, some request.requestId⟩,
       [.callClient .getMintFee])
    else (modal, [])

/-- The outcome emission at the end of `handleApprove`: a panel response
for external requests with a correlation id, the legacy
`feeless-wallet-response` for external requests carrying only an action
`id`, or settlement of the local promise.  (The correlation id generated
by the dispatcher is non-empty, so JS truthiness of `modal.requestId`
coincides with `isSome`.) -/
def emitResult (modal : Modal) (result : ResVal) : List Effect :=
  if modal.external && modal.requestId.isSome then
    [.sendPanelResponse (modal.requestId.getD "") result none]
  else if modal.external && modal.action.actionId.isSome then
    [.sendWalletResponse (modal.action.actionId.getD "") result none]
  else if modal.hasPromise then [.resolvePromise result]
  else []

/-- The Approve button handler: a no-op when no modal is open; otherwise
it computes the result for the pending action kind, invoking the
corresponding Wallet Client methods (result `undefined` when the client
is absent), emits the outcome, and clears the modal slot.  In the `send`
and `mintToken` branches an absent client triggers an early `return`
that leaves the modal open and emits nothing. -/
def handleApprove (client : Option FeelessClient) (modal? : Option Modal) :
    Option Modal × List Effect :=
  match modal? with
  | none => (none, [])
  | some modal =>
    match modal.action with
    | .getPublicKey _ =>
      match client with
      | some c =>
        (none, .callClient .getPublic :: emitResult modal (.pk c.getPublic))
      | none => (none, emitResult modal .undefined)
    | .sharePublicKey _ =>
      match client with
      | some c =>
        (none, .callClient .getPublic :: emitResult modal (.pk c.getPublic))
      | none => (none, emitResult modal .undefined)
    | .signMessage msg _ =>
      match client with
      | some c =>
        (none, .callClient .getPublic :: .callClient (.signMessage msg) ::
          emitResult modal (.pkSig c.getPublic (c.signMessage msg)))
      | none => (none, emitResult modal .undefined)
    | .signIn nonce _ =>
      match client with
      | some c =>
        (none, .callClient .getPublic ::
          .callClient (.signMessage (.str (jsString nonce))) ::
          emitResult modal
            (.pkSig c.getPublic (c.signMessage (.str (jsString nonce)))))
      | none => (none, emitResult modal .undefined)
    | .send amount toAddr token unlock _ =>
      match client with
      | none => (some modal, [])
      | some c =>
        let sign := c.placeTXV2 toAddr amount token unlock
        (none, .callClient (.placeTXV2 toAddr amount token unlock) ::
          .callClient .getPublic ::
          emitResult modal
            (.txResult (if sign.isSome then "success" else "fail") c.getPublic sign))
    | .mintToken airdrop miningReward token _ =>
      match client with
      | none => (some modal, [])
      | some c =>
        let res := c.mintToken airdrop miningReward token
        (none, .callClient (.mintToken airdrop miningReward token) ::
          .callClient .getPublic ::
          emitResult modal
            (.mintResult (if res then "success" else "fail") c.getPublic))
    | .alive _ => (none, emitResult modal .undefined)

/-- The Reject button handler (also invoked by the countdown expiry and
the dialog close): a no-op when no modal is open; otherwise it emits the
`User denied` error across the boundary the request arrived from and
clears the modal slot.  No Wallet Client method is invoked on this
path. -/
def handleReject (modal? : Option Modal) : Option Modal × List Effect :=
  match modal? with
  | none => (none, [])
  | some modal =>
    if modal.external && modal.requestId.isSome then
      (none, [.sendPanelResponse (modal.requestId.getD "") .undefined (some "User denied")])
    else if modal.external && modal.action.actionId.isSome then
      (none, [.sendWalletResponse (modal.action.actionId.getD "") .undefined (some "User denied")])
    else if modal.hasPromise then (none, [.rejectPromise "User denied"])
    else (none, [])

/-- `requestAction` for in-process callers: unconditionally overwrites
the modal slot with a non-external record holding the promise pair.  The
previous slot contents (first argument) are discarded. -/
def requestAction (_old : Option Modal) (action : WalletActionRequest) : Option Modal :=
  some ⟨action, true, false, none⟩

/-- The countdown initial value (`useState(10)` / the reset value). -/
def initialCountdown : Nat := 10

/-- The `setInterval` period of the countdown effect, in milliseconds. -/
def tickIntervalMs : Nat := 1000

/-- The provider state relevant to the countdown effect. -/
structure PanelState where
  modal : Option Modal
  countdown : Nat
deriving DecidableEq

/-- One interval tick of the countdown effect.  No interval is running
when no modal is open (the effect's cleanup cancels it), so a tick is a
no-op then; at a count of 1 or below the interval is cleared and
`handleReject` auto-rejects, resetting the count to the initial value;
otherwise the count decrements by one. -/
def tick (st : PanelState) : PanelState × List Effect :=
  match st.modal with
  | none => (st, [])
  | some m =>
    if st.countdown ≤ 1 then
      (⟨(handleReject (some m)).1, initialCountdown⟩, (handleReject (some m)).2)
    else (⟨some m, st.countdown - 1⟩, [])

/-- Iterated interval ticks with accumulated effects. -/
def ticks : Nat → PanelState → PanelState × List Effect
  | 0, st => (st, [])
  | n + 1, st =>
    ((ticks n (tick st).1).1, (tick st).2 ++ (ticks n (tick st).1).2)

/-- The number of pending requests held in the modal slot. -/
def pendingCount : Option Modal → Nat
  | none => 0
  | some _ => 1

/-! ### Panel claim theorems -/

theorem handleReject_fst (m? : Option Modal) : (handleReject m?).1 = none := by
  cases m? with
  | none => rfl
  | some m =>
    simp only [handleReject]
    split_ifs <;> rfl

theorem ticks_run : ∀ (k c : Nat) (m : Modal), k < c →
    ticks k ⟨some m, c⟩ = (⟨some m, c - k⟩, []) := by
  intro k
  induction k with
  | zero => intro c m _; simp [ticks]
  | succ n ih =>
    intro c m h
    have hc : ¬ c ≤ 1 := by omega
    have ht : tick ⟨some m, c⟩ = (⟨some m, c - 1⟩, []) := by
      simp [tick, hc]
    have harith : c - 1 - n = c - (n + 1) := by omega
    simp [ticks, ht, ih (c - 1) m (by omega), harith]

theorem ticks_expire : ∀ (c : Nat) (m : Modal), 1 ≤ c →
    ticks c ⟨some m, c⟩ = (⟨none, initialCountdown⟩, (handleReject (some m)).2) := by
  intro c
  induction c with
  | zero => intro m h; omega
  | succ n ih =>
    intro m _
    by_cases hn : n = 0
    · subst hn
      have ht : tick ⟨some m, 1⟩ =
          (⟨none, initialCountdown⟩, (handleReject (some m)).2) := by
        simp [tick, handleReject_fst]
      simp [ticks, ht]
    · have hc : ¬ n + 1 ≤ 1 := by omega
      have ht : tick ⟨some m, n + 1⟩ = (⟨some m, n⟩, []) := by
        simp [tick, hc]
      simp [ticks, ht, ih m (by omega)]

/-- C2 counterexample: with no Wallet Client present (user not logged
in), an external `alive` request is NOT answered: the `if (!client)
return` guard of `handlePanelRequest` precedes the `alive` special case,
so the panel sends nothing, refuting the claim that every `alive`
request is answered immediately. -/
theorem alive_ignored_when_logged_out :
    handlePanelRequest none none
        ⟨"feeless-wallet-panel-request", "alive",
          ⟨.undef, .undef, .undef, .undef, .undef, .undef, .undef, .undef⟩, "r4"⟩ =
      (none, []) := by
  rfl

/-- C2 (amended): provided a Wallet Client is present, every external
panel request with method `alive` is answered immediately with
`{type: "feeless-wallet-panel-response", requestId, result: {status:
"alive"}}`, without presenting an approval step, and regardless of
whether another request is pending (the modal slot is untouched). -/
theorem alive_immediate_reply_when_logged_in (c : FeelessClient)
    (st : Option Modal) (req : PanelReq)
    (htype : req.type = "feeless-wallet-panel-request")
    (hm : req.method = "alive") :
    handlePanelRequest (some c) st req =
      (st, [.sendPanelResponse req.requestId .aliveStatus none]) := by
  simp [handlePanelRequest, htype, hm]

/-- Witness for the amended C2 at a concrete client, a pending modal and
a concrete `alive` request. -/
theorem alive_immediate_reply_when_logged_in_witness :
    handlePanelRequest
        (some ⟨"PK", fun _ => "SIG", fun _ _ _ _ => none, fun _ _ _ => false, 0⟩)
        (some ⟨.getPublicKey none, false, true, some "r0"⟩)
        ⟨"feeless-wallet-panel-request", "alive",
          ⟨.undef, .undef, .undef, .undef, .undef, .undef, .undef, .undef⟩, "r4"⟩ =
      (some ⟨.getPublicKey none, false, true, some "r0"⟩,
        [.sendPanelResponse "r4" .aliveStatus none]) := by
  exact alive_immediate_reply_when_logged_in
    ⟨"PK", fun _ => "SIG", fun _ _ _ _ => none, fun _ _ _ => false, 0⟩
    (some ⟨.getPublicKey none, false, true, some "r0"⟩)
    ⟨"feeless-wallet-panel-request", "alive",
      ⟨.undef, .undef, .undef, .undef, .undef, .undef, .undef, .undef⟩, "r4"⟩
    rfl rfl

theorem signInGuard_false (msg : IncomingMsg)
    (h2 : msg.method = "signIn" → signInInvalid msg = false) :
    (msg.method == "signIn" && signInInvalid msg) = false := by
  by_cases hs : msg.method = "signIn"
  · simp [hs, h2 hs]
  · simp [hs]

/-- C4: when no Wallet Client is present, the panel sends no response
message at all for any external request with a method other than `alive`
and its modal state is unchanged; and a dispatch with no panel response
events delivers only the dispatcher timeout error at 12000 ms to the
caller. -/
theorem no_client_silent_ignore :
    (∀ (st : Option Modal) (req : PanelReq), req.method ≠ "alive" →
      handlePanelRequest none st req = (st, [])) ∧
    (∀ (msg : IncomingMsg) (rid : String), supportedMethod msg.method = true →
      (msg.method = "signIn" → signInInvalid msg = false) →
      callerResponse (dispatch msg rid []) =
        some (timeoutMs, ⟨.undef, .str timeoutError⟩)) := by
  constructor
  · intro st req _hm
    unfold handlePanelRequest
    split <;> rfl
  · intro msg rid h1 h2
    simp [dispatch, callerResponse, h1, signInGuard_false msg h2, List.find?]

/-- Witness for C4: a concrete external `send` request with no wallet
logged in leaves the panel silent, and the corresponding dispatch with
no panel events times out at 12000 ms. -/
theorem no_client_silent_ignore_witness :
    handlePanelRequest none none
        ⟨"feeless-wallet-panel-request", "send",
          ⟨.undef, .undef, .intNum 500, .str "addr123", .str "USD", .undef, .undef,
            .undef⟩, "r5"⟩ =
      (none, []) ∧
    callerResponse
        (dispatch
          ⟨"send", some ⟨.undef, .undef, .intNum 500, .str "addr123", .str "USD",
            .undef, .undef, .undef⟩⟩ "r5" []) =
      some (timeoutMs, ⟨.undef, .str timeoutError⟩) := by
  constructor
  · exact no_client_silent_ignore.1 none
      ⟨"feeless-wallet-panel-request", "send",
        ⟨.undef, .undef, .intNum 500, .str "addr123", .str "USD", .undef, .undef,
          .undef⟩, "r5"⟩ (by decide)
  · exact no_client_silent_ignore.2
      ⟨"send", some ⟨.undef, .undef, .intNum 500, .str "addr123", .str "USD",
        .undef, .undef, .undef⟩⟩ "r5" (by decide) (by decide)

/-- C5: the relay holds a single optional pending slot, so the number of
pending requests after every operation is 0 or 1; a new external request
accepted while one is pending overwrites the slot with content
independent of the previous occupant (replacement, not queueing), and
likewise an in-process `requestAction` overwrites the slot. -/
theorem pending_request_at_most_one :
    (∀ st : Option Modal, pendingCount st ≤ 1) ∧
    (∀ (c : FeelessClient) (m : Modal) (req : PanelReq),
      req.type = "feeless-wallet-panel-request" →
      (req.method = "getPublicKey" ∨ req.method = "signMessage" ∨
       req.method = "signIn" ∨ req.method = "send" ∨ req.method = "mintToken") →
      (handlePanelRequest (some c) (some m) req).1 =
        (handlePanelRequest (some c) none req).1) ∧
    (∀ (old : Option Modal) (a : WalletActionRequest),
      requestAction old a = requestAction none a) ∧
    (∀ (cl : Option FeelessClient) (m? : Option Modal),
      pendingCount (handleApprove cl m?).1 ≤ 1) ∧
    (∀ m? : Option Modal, pendingCount (handleReject m?).1 ≤ 1) ∧
    (∀ st : PanelState, pendingCount ((tick st).1).modal ≤ 1) := by
  have hle : ∀ st : Option Modal, pendingCount st ≤ 1 := by
    intro st; cases st <;> simp [pendingCount]
  refine ⟨hle, ?_, ?_, ?_, ?_, ?_⟩
  · intro c m req htype hm
    rcases hm with h | h | h | h | h <;> simp [handlePanelRequest, htype, h]
  · intro old a; rfl
  · intro cl m?; exact hle _
  · intro m?; exact hle _
  · intro st; exact hle _

/-- Witness for C5: a concrete `signIn` request arriving while a `send`
modal is pending yields the same new slot contents as if nothing had
been pending. -/
theorem pending_request_at_most_one_witness :
    (handlePanelRequest
        (some ⟨"PK", fun _ => "SIG", fun _ _ _ _ => none, fun _ _ _ => false, 0⟩)
        (some ⟨.send .undef .undef .undef .undef none, false, true, some "r6"⟩)
        ⟨"feeless-wallet-panel-request", "signIn",
          ⟨.intNum 42, .undef, .undef, .undef, .undef, .undef, .undef, .undef⟩,
          "r7"⟩).1 =
      (handlePanelRequest
        (some ⟨"PK", fun _ => "SIG", fun _ _ _ _ => none, fun _ _ _ => false, 0⟩)
        none
        ⟨"feeless-wallet-panel-request", "signIn",
          ⟨.intNum 42, .undef, .undef, .undef, .undef, .undef, .undef, .undef⟩,
          "r7"⟩).1 := by
  exact pending_request_at_most_one.2.1
    ⟨"PK", fun _ => "SIG", fun _ _ _ _ => none, fun _ _ _ => false, 0⟩
    ⟨.send .undef .undef .undef .undef none, false, true, some "r6"⟩
    ⟨"feeless-wallet-panel-request", "signIn",
      ⟨.intNum 42, .undef, .undef, .undef, .undef, .undef, .undef, .undef⟩, "r7"⟩
    rfl (Or.inr (Or.inr (Or.inl rfl)))

/-- C6: while a request is presented, the countdown starts at 10 and
decrements by 1 per interval tick of 1000 ms without emitting any
outcome; the 10th tick (the one on which the count would reach 0)
auto-rejects, emitting the `User denied` outcome and closing the modal;
and once the modal is cleared by a manual Approve or Reject the interval
is cancelled, so a tick is a no-op and no late timeout outcome fires. -/
theorem countdown_auto_reject (m : Modal) (rid : String)
    (hext : m.external = true) (hrid : m.requestId = some rid) :
    initialCountdown = 10 ∧ tickIntervalMs = 1000 ∧
    (∀ k, k < initialCountdown →
      ticks k ⟨some m, initialCountdown⟩ = (⟨some m, initialCountdown - k⟩, [])) ∧
    ticks initialCountdown ⟨some m, initialCountdown⟩ =
      (⟨none, initialCountdown⟩,
        [.sendPanelResponse rid .undefined (some "User denied")]) ∧
    (∀ st : PanelState, st.modal = none → tick st = (st, [])) := by
  refine ⟨rfl, rfl, ?_, ?_, ?_⟩
  · intro k hk; exact ticks_run k initialCountdown m hk
  · rw [ticks_expire initialCountdown m (by decide)]
    simp [handleReject, hext, hrid]
  · intro st h
    cases st with
    | mk modal cd => cases h; rfl

/-- Witness for C6 at a concrete external modal: the 10th tick emits the
denial response and closes the modal. -/
theorem countdown_auto_reject_witness :
    ticks initialCountdown
        ⟨some ⟨.getPublicKey none, false, true, some "r9"⟩, initialCountdown⟩ =
      (⟨none, initialCountdown⟩,
        [.sendPanelResponse "r9" .undefined (some "User denied")]) := by
  exact (countdown_auto_reject ⟨.getPublicKey none, false, true, some "r9"⟩
    "r9" rfl rfl).2.2.2.1

/-- C7 counterexample: the program does not always sign the decimal
string rendering of the nonce.  `Number.isInteger(1e21)` holds, so nonce
10^21 passes the dispatcher's validation and reaches `handleApprove`,
but `String(1e21)` is the exponential `"1e+21"`, so the Wallet Client
signs `"1e+21"` and not the 22-digit decimal rendering; likewise nonce
`2^60` is signed as its shortest round-trip digits
`"1152921504606847000"`, not its exact decimal digits
`"1152921504606846976"`. -/
theorem approve_signIn_exponential_nonce :
    (handleApprove
        (some ⟨"PK", fun v => jsString v, fun _ _ _ _ => none, fun _ _ _ => false, 0⟩)
        (some ⟨.signIn (.intNum 1000000000000000000000) none, false, true,
          some "rX"⟩)).2 =
      [.callClient .getPublic,
       .callClient (.signMessage (.str "1e+21")),
       .sendPanelResponse "rX" (.pkSig "PK" "1e+21") none] ∧
    jsString (.intNum 1000000000000000000000) ≠
      toString (1000000000000000000000 : Int) ∧
    jsString (.intNum 1152921504606846976) = "1152921504606847000" ∧
    toString (1152921504606846976 : Int) = "1152921504606846976" := by
  refine ⟨?_, ?_, ?_, ?_⟩ <;> decide

/-- C7 (amended): approving a pending external `signIn` request whose
integer nonce `n` lies in the safe-integer range `|n| ≤ 2^53` — where a
JS number is an exact integer and `String(nonce)` yields its decimal
digits — while a Wallet Client is present emits one panel response
carrying the client's public key together with the client's signature
over the decimal string rendering of `n` (`toString n` here), after
invoking exactly the corresponding client methods, and closes the modal.
Outside the safe range the signed string is the ECMAScript rendering of
the nonce (shortest round-trip digits, exponential from 10^21 up), per
the counterexample above. -/
theorem approve_signIn_signature (c : FeelessClient) (n : Int) (rid : String)
    (hsafe : n.natAbs ≤ 2 ^ 53) :
    handleApprove (some c)
        (some ⟨.signIn (.intNum n) none, false, true, some rid⟩) =
      (none,
        [.callClient .getPublic,
         .callClient (.signMessage (.str (toString n))),
         .sendPanelResponse rid
           (.pkSig c.getPublic (c.signMessage (.str (toString n)))) none]) := by
  have hjs : jsString (.intNum n) = toString n := by
    show jsNumberToString n = toString n
    unfold jsNumberToString
    rw [if_pos hsafe]
  simp [handleApprove, emitResult, hjs]

/-- Witness for the amended C7 at the spec's concrete scenario: nonce 42
approved with a concrete client yields the signature over `"42"`. -/
theorem approve_signIn_signature_witness :
    handleApprove
        (some ⟨"PK", fun v => jsString v, fun _ _ _ _ => none, fun _ _ _ => false, 0⟩)
        (some ⟨.signIn (.intNum 42) none, false, true, some "r10"⟩) =
      (none,
        [.callClient .getPublic,
         .callClient (.signMessage (.str "42")),
         .sendPanelResponse "r10" (.pkSig "PK" "42") none]) := by
  have h := approve_signIn_signature
    ⟨"PK", fun v => jsString v, fun _ _ _ _ => none, fun _ _ _ => false, 0⟩
    42 "r10" (by decide)
  simpa using h

/-- C8: rejection (manual click or countdown expiry, which runs the same
`handleReject`) emits exactly the `User denied` error to the request's
originator — a panel response carrying the correlation id for external
requests, the promise rejection reason for in-process requests — closes
the modal, and invokes no Wallet Client method on any rejection path. -/
theorem reject_emits_user_denied (m : Modal) (rid : String) :
    (m.external = true → m.requestId = some rid →
      handleReject (some m) =
        (none, [.sendPanelResponse rid .undefined (some "User denied")])) ∧
    (m.external = false → m.hasPromise = true →
      handleReject (some m) = (none, [.rejectPromise "User denied"])) ∧
    (∀ (m? : Option Modal) (e : Effect), e ∈ (handleReject m?).2 →
      ∀ cc : ClientCall, e ≠ .callClient cc) := by
  refine ⟨?_, ?_, ?_⟩
  · intro hext hrid
    simp [handleReject, hext, hrid]
  · intro hext hp
    simp [handleReject, hext, hp]
  · intro m? e he cc
    cases m? with
    | none => simp [handleReject] at he
    | some mm =>
      simp only [handleReject] at he
      split_ifs at he <;> simp at he <;> subst he <;> simp

/-- Witness for C8 at a concrete external modal and a concrete in-process
modal. -/
theorem reject_emits_user_denied_witness :
    handleReject (some ⟨.send .undef .undef .undef .undef none, false, true, some "r8"⟩) =
      (none, [.sendPanelResponse "r8" .undefined (some "User denied")]) ∧
    handleReject (some ⟨.signMessage (.str "hello") none, true, false, none⟩) =
      (none, [.rejectPromise "User denied"]) := by
  constructor
  · exact (reject_emits_user_denied
      ⟨.send .undef .undef .undef .undef none, false, true, some "r8"⟩ "r8").1 rfl rfl
  · exact (reject_emits_user_denied
      ⟨.signMessage (.str "hello") none, true, false, none⟩ "").2.1 rfl rfl

end FeelessWallet
